import Mathlib

/-!
# cloudtask-center: storage driver registry and the etcd backend

A shallow embedding of `cache/driver/driver.go`, `cache/driver/etcd/engine.go`
and `cache/driver/etcd/etcd.go`.

Conventions of the embedding

* A Go `error` is a value of `GoError`; `Option GoError` is a Go `error`
  variable, `none` being `nil`.
* A Go slice is `Slice α := Option (List α)`, `none` being the `nil` slice and
  `some []` an empty slice that is not `nil`.
* Go `int` values (status codes, page indices, row totals) are `Int`; the
  values that occur are far below `2^63`, so no wrap-around is modelled.
* A Go `map[string]V` that is only assigned and read is a function
  `String → Option V`; the map `initializes`, whose keys are enumerated, is the
  list of its entries.
* The `for` loops of `readJobs` and `readSimpleJobs` need not terminate; they
  are run with a bound on the number of iterations, and a run that reaches
  the bound has not returned.
-/

namespace CloudTask

/-! ## Go values -/

/-- A Go `error` value.  Package level values made by `errors.New` are compared
by identity and are `sentinel`s; `fmt.Errorf` builds an `errorf` carrying the
formatted text; an error handed back by a library outside the repository
(the HTTP client, the JSON decoder, the URL parser) is `external`. -/
inductive GoError where
  | sentinel (name : String)
  | errorf (text : String)
  | external (text : String)
  deriving DecidableEq, Repr

/-- The value of `types.ErrDriverResourceNotFound`. -/
def ErrDriverResourceNotFound : GoError := GoError.sentinel "ErrDriverResourceNotFound"

/-- The value of `ErrNgCloudStorageDriverURLInvalid` (etcd.go, line 21). -/
def ErrNgCloudStorageDriverURLInvalid : GoError :=
  GoError.sentinel "ErrNgCloudStorageDriverURLInvalid"

/-- A Go slice: `none` is the `nil` slice. -/
abbrev Slice (α : Type) := Option (List α)

/-- The Go function `strconv.Itoa`. -/
def Itoa (n : Int) : String := toString n

/-- The constant `http.StatusBadRequest`. -/
def StatusBadRequest : Int := 400

/-- The constant `http.StatusNoContent`. -/
def StatusNoContent : Int := 204

/-! ## Domain records (`cloudtask/common/models`) -/

/-- Modelled from the spec: `models.Job`, declared outside the repository.  The
seven fields read by `getSimpleJob`, and `rest` for the fields this code never
looks at (schedule, commands). -/
structure Job where
  JobId : String
  Name : String
  Location : String
  GroupId : String
  Servers : List String
  Enabled : Int
  Stat : Int
  rest : String
  deriving DecidableEq, Repr

/-- Modelled from the spec: `models.SimpleJob`, the seven field projection of a
`Job`. -/
structure SimpleJob where
  JobId : String
  Name : String
  Location : String
  GroupId : String
  Servers : List String
  Enabled : Int
  Stat : Int
  deriving DecidableEq, Repr

/-! ## The HTTP client seen by the engine -/

/-- A query, `map[string][]string`. -/
abbrev Query := String → Option (List String)

/-- The empty map `map[string][]string{}`. -/
def Query.empty : Query := fun _ => none

/-- The assignment `query[key] = value`. -/
def Query.set (query : Query) (key : String) (value : List String) : Query :=
  fun k => if k = key then some value else query k

/-- What `engine.client.Get` hands back when it reports no error: the status
code and the body the decoders read. -/
structure HttpResponse where
  StatusCode : Int
  body : String
  deriving DecidableEq, Repr

/-- The method `engine.client.Get(ctx, path, query, nil)` of the HTTP library:
either a transport error, given by its text, or a response.  One collection
read sends no query twice, the page index being different each time, so a
function of the path and the query stands for any sequence of responses the
remote may give to one read. -/
abbrev HttpClient := String → Query → Except String HttpResponse

/-- The decoded page of a collection read: the records of the page and the
total row count the remote reports. -/
structure PageResponse (α : Type) where
  Jobs : List α
  TotalRows : Int

/-- What a collection read has done so far: the queries it has sent, in order,
and what it returned (`none` while it has not returned). -/
structure FetchRun (α : Type) where
  requests : List Query
  returned : Option (Slice α × Option GoError)

/-- The `for` loop shared by `readJobs` (engine.go, lines 135-159) and
`readSimpleJobs` (lines 99-123), run for at most `fuel` iterations from the
loop state `query`, `pageIndex`, `jobs`; `sent` are the queries sent before.
`parse` is the decoder of the page (`parseJobsResponse`,
`parseSimpleJobsResponse`). -/
def pageLoop {α : Type} (client : HttpClient)
    (parse : HttpResponse → Except GoError (PageResponse α)) :
    Nat → Query → Int → List α → List Query → FetchRun α
  | 0, _, _, _, sent => ⟨sent, none⟩
  | fuel + 1, query, pageIndex, jobs, sent =>
    let query := query.set "pageIndex" [Itoa pageIndex]
    match client "/sys_jobs" query with
    | .error err => ⟨sent ++ [query], some (none, some (GoError.external err))⟩
    | .ok respData =>
      let statusCode := respData.StatusCode
      if statusCode ≥ StatusBadRequest then
        ⟨sent ++ [query], some (none, some (GoError.errorf
          ("HTTP GET sys_jobs jobs failure " ++ Itoa statusCode ++ ".")))⟩
      else
        match parse respData with
        | .error err => ⟨sent ++ [query], some (none, some err)⟩
        | .ok respJobs =>
          let jobs := jobs ++ respJobs.Jobs
          if (jobs.length : Int) ≠ respJobs.TotalRows then
            pageLoop client parse fuel query (pageIndex + 1) jobs (sent ++ [query])
          else
            ⟨sent ++ [query], some (some jobs, none)⟩

/-- The method `Engine.readJobs` (engine.go, lines 127-161). -/
def readJobs (client : HttpClient)
    (parseJobsResponse : HttpResponse → Except GoError (PageResponse Job))
    (fuel : Nat) (query : Query) : FetchRun Job :=
  pageLoop client parseJobsResponse fuel query 1 [] []

/-- The value assigned to `query["fields"]` by `readSimpleJobs`. -/
def simpleJobFields : List String :=
  ["[\"jobid\",\"name\",\"location\",\"groupid\",\"servers\",\"enabled\",\"stat\"]"]

/-- The method `Engine.readSimpleJobs` (engine.go, lines 90-125). -/
def readSimpleJobs (client : HttpClient)
    (parseSimpleJobsResponse : HttpResponse → Except GoError (PageResponse SimpleJob))
    (fuel : Nat) (query : Query) : FetchRun SimpleJob :=
  pageLoop client parseSimpleJobsResponse fuel (query.set "fields" simpleJobFields) 1 [] []

/-- The method `Engine.getJob` (engine.go, lines 181-204).  `JSON` is the
decoder `respData.JSON(job)` of the HTTP library, its error given by its text;
the `nil` query is the empty map. -/
def getJob (client : HttpClient) (JSON : HttpResponse → Except String Job)
    (jobid : String) : Option Job × Option GoError :=
  match client ("/sys_jobs/" ++ jobid) Query.empty with
  | .error err => (none, some (GoError.external err))
  | .ok respData =>
    let statusCode := respData.StatusCode
    if statusCode ≥ StatusBadRequest then
      (none, some (GoError.errorf
        ("HTTP GET sys_jobs " ++ jobid ++ " failure " ++ Itoa statusCode ++ ".")))
    else if statusCode = StatusNoContent then
      (none, some ErrDriverResourceNotFound)
    else
      match JSON respData with
      | .error err => (none, some (GoError.external err))
      | .ok job => (some job, none)

/-- The method `Engine.getSimpleJob` (engine.go, lines 163-179).  `getJob`
never returns a `nil` job together with a `nil` error (`getJob_nil_error`
below); the model gives that unreachable case, a nil dereference in Go, the
value `(none, none)`. -/
def getSimpleJob (client : HttpClient) (JSON : HttpResponse → Except String Job)
    (jobid : String) : Option SimpleJob × Option GoError :=
  match getJob client JSON jobid with
  | (_, some err) => (none, some err)
  | (none, none) => (none, none)
  | (some job, none) =>
    (some
      { JobId := job.JobId
        Name := job.Name
        Location := job.Location
        GroupId := job.GroupId
        Servers := job.Servers
        Enabled := job.Enabled
        Stat := job.Stat }, none)

/-- The method `Engine.putJob` (engine.go, lines 206-210): a stub. -/
def putJob (_job : Job) : Option GoError := none

/-- Modelled from the spec: `models.JobLog`, declared outside the repository; an
execution log record keyed by job identifier. -/
structure JobLog where
  JobId : String
  rest : String
  deriving DecidableEq, Repr

/-- The method `Engine.postJobLog` (engine.go, lines 212-216): a stub. -/
def postJobLog (_jobLog : JobLog) : Option GoError := none

/-- The method `Engine.readLocationsName` (engine.go, lines 85-88). -/
def readLocationsName : Slice String × Option GoError := (some ["myCluster"], none)

/-! ## The driver registry (`cache/driver/driver.go`) -/

/-- A dynamically typed Go value, `interface{}`: a string or something else. -/
inductive Value where
  | string (s : String)
  | other (description : String)
  deriving DecidableEq, Repr

/-- The type `types.Parameters`, `map[string]interface{}`. -/
abbrev Parameters := String → Option Value

/-- The type `Initialize` (driver.go, line 12) for drivers of type `δ`.  The
result `none` is a run-time panic of the constructor. -/
abbrev Initialize (δ : Type) := Parameters → Option (Option δ × Option GoError)

/-- The order `<=` of Go on the characters of two strings: lexicographic on the
bytes of the UTF-8 encoding, which is lexicographic on the code points. -/
def charsLE : List Char → List Char → Bool
  | [], _ => true
  | _ :: _, [] => false
  | a :: as, b :: bs => a.toNat < b.toNat || (a.toNat == b.toNat && charsLE as bs)

/-- The order `a <= b` of Go on strings, the order `sort.Strings` sorts by. -/
def stringLE (a b : String) : Bool := charsLE a.data b.data

/-- The function literal of driver.go, lines 16-23, applied to a map
`initializes` whose entries are listed in `entries`: the keys, sorted by
`sort.Strings` and joined with commas. -/
def supportedBackendOf {δ : Type} (entries : List (String × Initialize δ)) : String :=
  ",".intercalate ((entries.map Prod.fst).insertionSort (fun a b => stringLE a b = true))

/-- The package level variables of `driver`: the map `initializes`, kept as the
list of its entries (no key twice), and the string `supportedBackend`. -/
structure Registry (δ : Type) where
  initializes : List (String × Initialize δ)
  supportedBackend : String

/-- The state after the package level variables are initialised (driver.go,
lines 14-24): `initializes` is the empty map and `supportedBackend` is the
value of the function literal, which Go calls right there, on that map. -/
def Registry.init (δ : Type) : Registry δ :=
  { initializes := []
    supportedBackend := supportedBackendOf ([] : List (String × Initialize δ)) }

/-- The assignment `m[key] = value` on a map kept as the list of its entries. -/
def mapSet {ν : Type} : List (String × ν) → String → ν → List (String × ν)
  | [], key, value => [(key, value)]
  | (k, v) :: rest, key, value =>
    if k = key then (key, value) :: rest else (k, v) :: mapSet rest key value

/-- The lookup `m[key]` with its `exists` flag. -/
def mapGet {ν : Type} : List (String × ν) → String → Option ν
  | [], _ => none
  | (k, v) :: rest, key => if k = key then some v else mapGet rest key

/-- The function `AddDriver` (driver.go, lines 51-53). -/
def AddDriver {δ : Type} (reg : Registry δ) (backend : String) (init : Initialize δ) :
    Registry δ :=
  { reg with initializes := mapSet reg.initializes backend init }

/-- The function `NewDriver` (driver.go, lines 44-49).  `notSupportedText` is
the text of `types.ErrDriverNotSupported`, which `%s` prints. -/
def NewDriver {δ : Type} (notSupportedText : String) (reg : Registry δ)
    (backend : String) (parameters : Parameters) : Option (Option δ × Option GoError) :=
  match mapGet reg.initializes backend with
  | some init => init parameters
  | none =>
    some (none, some (GoError.errorf (notSupportedText ++ " " ++ reg.supportedBackend)))

/-- The registry after a sequence of `AddDriver` calls, starting from the
initial package state. -/
def registered {δ : Type} (calls : List (String × Initialize δ)) : Registry δ :=
  calls.foldl (fun reg call => AddDriver reg call.1 call.2) (Registry.init δ)

/-! ## The etcd backend (`cache/driver/etcd/etcd.go`) -/

/-- The constant `defaultReadPageSize`. -/
def defaultReadPageSize : Int := 512

/-- The fields of a `url.URL` that `parseEngineConfigs` reads. -/
structure URL where
  Scheme : String
  Host : String
  Path : String
  RawQuery : String
  deriving DecidableEq, Repr

/-- The function `parseEngineConfigs` (etcd.go, lines 42-78).  `Atoi`,
`urlParse` and `pathClean` are the library functions `strconv.Atoi`,
`url.Parse` and `path.Clean`; `none` from the first two is their error.  The
result `none` is the panic of a failed type assertion `value.(string)`. -/
def parseEngineConfigs (Atoi : String → Option Int) (urlParse : String → Option URL)
    (pathClean : String → String) (parameters : Parameters) :
    Option (String × Int × Option GoError) :=
  let afterPageSize (readPageSize : Int) : Option (String × Int × Option GoError) :=
    match parameters "apiurl" with
    | none => some ("", 0, some ErrNgCloudStorageDriverURLInvalid)
    | some (Value.other _) => none
    | some (Value.string raw) =>
      match urlParse raw with
      | none => some ("", 0, some ErrNgCloudStorageDriverURLInvalid)
      | some pRawURL =>
        let scheme := if pRawURL.Scheme = "" then "http" else pRawURL.Scheme
        let rawAPIURL := scheme ++ "://" ++ pRawURL.Host ++ pathClean pRawURL.Path
        let rawAPIURL :=
          if pRawURL.RawQuery ≠ "" then rawAPIURL ++ "?" ++ pRawURL.RawQuery else rawAPIURL
        some (rawAPIURL, readPageSize, none)
  match parameters "readpagesize" with
  | none => afterPageSize defaultReadPageSize
  | some (Value.other _) => none
  | some (Value.string text) =>
    match Atoi text with
    | some pValue => afterPageSize pValue
    | none => afterPageSize defaultReadPageSize

/-- The engine built by `NewEngine` (engine.go, lines 31-57): an HTTP client
with the fixed transport settings and a node opened on `hosts`.  The page size
argument is not stored. -/
structure Engine where
  hosts : String
  deriving DecidableEq, Repr

/-- The function `NewEngine` (engine.go, lines 31-57); a failure of
`node.Open` is printed and the engine is returned all the same. -/
def NewEngine (hosts : String) (_readPageSize : Int) : Engine := { hosts := hosts }

/-- The method `Engine.SetConfigParameters` (engine.go, lines 59-60): an empty
body. -/
def Engine.SetConfigParameters (engine : Engine) (_rawAPIURL : String)
    (_readPageSize : Int) : Engine := engine

/-- The struct `NgCloudStorageDriver` (etcd.go, lines 25-29). -/
structure NgCloudStorageDriver where
  engine : Engine
  deriving DecidableEq, Repr

/-- The function `New` (etcd.go, lines 36-40).  The result `none` is the panic
of the type assertion `parameters["hosts"].(string)`. -/
def New : Initialize NgCloudStorageDriver := fun parameters =>
  match parameters "hosts" with
  | some (Value.string hosts) => some (some { engine := NewEngine hosts 0 }, none)
  | _ => none

/-- The package state once `init` of the etcd package has run (etcd.go,
lines 31-33); `ETCD` is the backend identifier `types.ETCD`. -/
def etcdRegistry (ETCD : String) : Registry NgCloudStorageDriver :=
  AddDriver (Registry.init _) ETCD New

/-- What a method of the adapter does that other goroutines can observe, in
order: operations on the embedded `sync.RWMutex`, calls of a method of
`driver.engine`, and `logger.ERROR`. -/
inductive Event where
  | RLock
  | RUnlock
  | Lock
  | Unlock
  | engine (method : String)
  | log
  deriving DecidableEq, Repr

/-- One call of a method of the adapter: its events and what it returned. -/
structure Call (ρ : Type) where
  events : List Event
  result : ρ

/-- The method `NgCloudStorageDriver.SetConfigParameters` (etcd.go,
lines 91-100).  The result is the driver after the call, `none` when
`parseEngineConfigs` panics. -/
def NgCloudStorageDriver.SetConfigParameters (Atoi : String → Option Int)
    (urlParse : String → Option URL) (pathClean : String → String)
    (driver : NgCloudStorageDriver) (parameters : Parameters) :
    Call (Option NgCloudStorageDriver) :=
  match parseEngineConfigs Atoi urlParse pathClean parameters with
  | none => ⟨[], none⟩
  | some (_, _, some _) => ⟨[Event.log], some driver⟩
  | some (rawAPIURL, readPageSize, none) =>
    ⟨[Event.engine "SetConfigParameters", Event.log],
      some { driver with engine := driver.engine.SetConfigParameters rawAPIURL readPageSize }⟩

/-- The method `NgCloudStorageDriver.GetLocationsName` (etcd.go, lines 103-113). -/
def GetLocationsName : Call (Slice String) :=
  match readLocationsName with
  | (_, some _) => ⟨[Event.RLock, Event.engine "readLocationsName", Event.log, Event.RUnlock], some []⟩
  | (names, none) => ⟨[Event.RLock, Event.engine "readLocationsName", Event.RUnlock], names⟩

/-- The method `NgCloudStorageDriver.GetLocationSimpleJobs` (etcd.go,
lines 129-140).  The result is `none` while the fetch has not returned; the
read lock is then still held. -/
def GetLocationSimpleJobs (client : HttpClient)
    (parseSimpleJobsResponse : HttpResponse → Except GoError (PageResponse SimpleJob))
    (fuel : Nat) (location : String) : Call (Option (Slice SimpleJob)) :=
  let query := Query.empty.set "f_location" [location]
  match (readSimpleJobs client parseSimpleJobsResponse fuel query).returned with
  | none => ⟨[Event.RLock, Event.engine "readSimpleJobs"], none⟩
  | some (_, some _) =>
    ⟨[Event.RLock, Event.engine "readSimpleJobs", Event.log, Event.RUnlock], some (some [])⟩
  | some (jobs, none) =>
    ⟨[Event.RLock, Event.engine "readSimpleJobs", Event.RUnlock], some jobs⟩

/-- The method `NgCloudStorageDriver.GetSimpleJob` (etcd.go, lines 143-153). -/
def GetSimpleJob (client : HttpClient) (JSON : HttpResponse → Except String Job)
    (jobid : String) : Call (Option SimpleJob) :=
  match getSimpleJob client JSON jobid with
  | (_, some _) => ⟨[Event.RLock, Event.engine "getSimpleJob", Event.log, Event.RUnlock], none⟩
  | (job, none) => ⟨[Event.RLock, Event.engine "getSimpleJob", Event.RUnlock], job⟩

/-- The method `NgCloudStorageDriver.GetJobs` (etcd.go, lines 156-167). -/
def GetJobs (client : HttpClient)
    (parseJobsResponse : HttpResponse → Except GoError (PageResponse Job))
    (fuel : Nat) : Call (Option (Slice Job)) :=
  let query := Query.empty
  match (readJobs client parseJobsResponse fuel query).returned with
  | none => ⟨[Event.RLock, Event.engine "readJobs"], none⟩
  | some (_, some _) =>
    ⟨[Event.RLock, Event.engine "readJobs", Event.log, Event.RUnlock], some (some [])⟩
  | some (jobs, none) => ⟨[Event.RLock, Event.engine "readJobs", Event.RUnlock], some jobs⟩

/-- The method `NgCloudStorageDriver.GetStateJobs` (etcd.go, lines 170-181). -/
def GetStateJobs (client : HttpClient)
    (parseJobsResponse : HttpResponse → Except GoError (PageResponse Job))
    (fuel : Nat) (state : Int) : Call (Option (Slice Job)) :=
  let query := Query.empty.set "f_stat" [Itoa state]
  match (readJobs client parseJobsResponse fuel query).returned with
  | none => ⟨[Event.RLock, Event.engine "readJobs"], none⟩
  | some (_, some _) =>
    ⟨[Event.RLock, Event.engine "readJobs", Event.log, Event.RUnlock], some (some [])⟩
  | some (jobs, none) => ⟨[Event.RLock, Event.engine "readJobs", Event.RUnlock], some jobs⟩

/-- The method `NgCloudStorageDriver.GetLocationJobs` (etcd.go, lines 184-195). -/
def GetLocationJobs (client : HttpClient)
    (parseJobsResponse : HttpResponse → Except GoError (PageResponse Job))
    (fuel : Nat) (location : String) : Call (Option (Slice Job)) :=
  let query := Query.empty.set "f_location" [location]
  match (readJobs client parseJobsResponse fuel query).returned with
  | none => ⟨[Event.RLock, Event.engine "readJobs"], none⟩
  | some (_, some _) =>
    ⟨[Event.RLock, Event.engine "readJobs", Event.log, Event.RUnlock], some (some [])⟩
  | some (jobs, none) => ⟨[Event.RLock, Event.engine "readJobs", Event.RUnlock], some jobs⟩

/-- The method `NgCloudStorageDriver.GetGroupJobs` (etcd.go, lines 198-209). -/
def GetGroupJobs (client : HttpClient)
    (parseJobsResponse : HttpResponse → Except GoError (PageResponse Job))
    (fuel : Nat) (groupid : String) : Call (Option (Slice Job)) :=
  let query := Query.empty.set "f_groupid" [groupid]
  match (readJobs client parseJobsResponse fuel query).returned with
  | none => ⟨[Event.RLock, Event.engine "readJobs"], none⟩
  | some (_, some _) =>
    ⟨[Event.RLock, Event.engine "readJobs", Event.log, Event.RUnlock], some (some [])⟩
  | some (jobs, none) => ⟨[Event.RLock, Event.engine "readJobs", Event.RUnlock], some jobs⟩

/-- The method `NgCloudStorageDriver.GetJob` (etcd.go, lines 212-222). -/
def GetJob (client : HttpClient) (JSON : HttpResponse → Except String Job)
    (jobid : String) : Call (Option Job) :=
  match getJob client JSON jobid with
  | (_, some _) => ⟨[Event.RLock, Event.engine "getJob", Event.log, Event.RUnlock], none⟩
  | (job, none) => ⟨[Event.RLock, Event.engine "getJob", Event.RUnlock], job⟩

/-- The method `NgCloudStorageDriver.SetJob` (etcd.go, lines 225-232). -/
def SetJob (job : Job) : Call Unit :=
  match putJob job with
  | some _ => ⟨[Event.Lock, Event.engine "putJob", Event.log, Event.Unlock], ()⟩
  | none => ⟨[Event.Lock, Event.engine "putJob", Event.Unlock], ()⟩

/-- The method `NgCloudStorageDriver.SetJobLog` (etcd.go, lines 235-242). -/
def SetJobLog (joblog : JobLog) : Call Unit :=
  match postJobLog joblog with
  | some _ => ⟨[Event.Lock, Event.engine "postJobLog", Event.log, Event.Unlock], ()⟩
  | none => ⟨[Event.Lock, Event.engine "postJobLog", Event.Unlock], ()⟩

/-- The events of a call show the lock `acquire`d first, `release`d last, and
no other operation on the mutex in between. -/
def heldThroughout (acquire release : Event) (events : List Event) : Bool :=
  events.head? = some acquire && events.getLast? = some release &&
    (events.filter fun e => e = Event.RLock || e = Event.RUnlock || e = Event.Lock ||
      e = Event.Unlock) = [acquire, release]

/-- The events of a call contain a call of the engine method `method` at a
point where the call has done no `Lock` before. -/
def engineWithoutLock (method : String) : List Event → Bool
  | [] => false
  | Event.Lock :: _ => false
  | e :: rest => e = Event.engine method || engineWithoutLock method rest

/-! ## Pages of a collection read, as the loop sees them -/

/-- The query a collection read sends for page `i`, `query` being the map its
caller built. -/
def pageQuery (query : Query) (i : Nat) : Query :=
  query.set "pageIndex" [Itoa i]

/-- The queries for the pages `1 .. k`, in increasing order. -/
def pageQueries (query : Query) (k : Nat) : List Query :=
  (List.range' 1 k).map (pageQuery query)

/-- The page a collection read gets for page `i`: the decoded response when
the transport succeeds, the status is below 400 and the body decodes. -/
def pageAt {α : Type} (client : HttpClient)
    (parse : HttpResponse → Except GoError (PageResponse α)) (query : Query) (i : Nat) :
    Option (PageResponse α) :=
  match client "/sys_jobs" (pageQuery query i) with
  | .error _ => none
  | .ok respData =>
    if respData.StatusCode ≥ StatusBadRequest then none
    else
      match parse respData with
      | .error _ => none
      | .ok respJobs => some respJobs

/-- The page the remote serves as page `i`, an empty page when it serves none. -/
def servedPage {α : Type} (client : HttpClient)
    (parse : HttpResponse → Except GoError (PageResponse α)) (query : Query) (i : Nat) :
    PageResponse α :=
  (pageAt client parse query i).getD ⟨[], 0⟩

/-- The records of the pages `1 .. k` in page order, `page 1 ++ ... ++ page k`. -/
def concatPages {α : Type} (page : Nat → PageResponse α) : Nat → List α
  | 0 => []
  | k + 1 => concatPages page k ++ (page (k + 1)).Jobs

/-- The pages `1 .. n` are served as `page 1 .. page n`, and after none of them
the accumulated size equals the total the page reports. -/
def Incomplete {α : Type} (client : HttpClient)
    (parse : HttpResponse → Except GoError (PageResponse α)) (query : Query)
    (page : Nat → PageResponse α) (n : Nat) : Prop :=
  ∀ i, 1 ≤ i → i ≤ n →
    pageAt client parse query i = some (page i) ∧
      ((concatPages page i).length : Int) ≠ (page i).TotalRows

/-- The fetch `run` (a function of the bound on its iterations) returns at page
`k`: bounded below `k` it has sent the queries for the pages before and has not
returned; from `k` on it has sent exactly the queries for the pages `1 .. k`
and returned `jobs` with a `nil` error. -/
def StopsAt {α : Type} (run : Nat → FetchRun α) (query : Query) (k : Nat)
    (jobs : List α) : Prop :=
  (∀ fuel, fuel < k → run fuel = ⟨pageQueries query fuel, none⟩) ∧
    ∀ fuel, k ≤ fuel → run fuel = ⟨pageQueries query k, some (some jobs, none)⟩

/-- The fetch `run` never returns: whatever the bound, it has sent one query
for each page up to the bound and has not returned. -/
def NeverReturns {α : Type} (run : Nat → FetchRun α) (query : Query) : Prop :=
  ∀ fuel, run fuel = ⟨pageQueries query fuel, none⟩

/-- The pages `1 .. k-1` are served as `page 1 .. page (k-1)` without
completing the fetch, and the request for page `k` fails at transport level
with `err`. -/
def TransportFailsAt {α : Type} (client : HttpClient)
    (parse : HttpResponse → Except GoError (PageResponse α)) (query : Query)
    (page : Nat → PageResponse α) (k : Nat) (err : String) : Prop :=
  Incomplete client parse query page (k - 1) ∧
    client "/sys_jobs" (pageQuery query k) = .error err

/-- The number of page requests a consistent remote with `R` records and page
size `s` needs: `max(1, ceil(R / s))`. -/
def pagesNeeded (R s : Nat) : Nat := max 1 ((R + s - 1) / s)

/-- Page `i` of `records` cut in pages of `s`: the records
`(i-1)*s .. min(i*s, R)-1` in order, with the total `R`. -/
def pageOfRecords {α : Type} (records : List α) (s : Nat) (i : Nat) : PageResponse α :=
  ⟨(records.drop ((i - 1) * s)).take s, records.length⟩

/-- The remote serves `records` consistently to the fetch whose caller built
`query`: each page `i` from 1 to `pagesNeeded` gets a response with a status
below 400 that decodes to page `i` of `records` and to the total `R`. -/
def ConsistentRemote {α : Type} (client : HttpClient)
    (parse : HttpResponse → Except GoError (PageResponse α)) (query : Query)
    (records : List α) (s : Nat) : Prop :=
  ∀ i, 1 ≤ i → i ≤ pagesNeeded records.length s →
    pageAt client parse query i = some (pageOfRecords records s i)

/-! ## Sample remotes -/

/-- A remote that answers the query for page 1 with `first`, the query for
page 2 with `second`, and fails at transport level on any other query. -/
def scriptedClient (first second : HttpResponse) : HttpClient := fun _ query =>
  if query "pageIndex" = some ["1"] then .ok first
  else if query "pageIndex" = some ["2"] then .ok second
  else .error "connection refused"

/-- A decoder that reads the body `"p1"` as `first`, the body `"p2"` as
`second`, and rejects any other body. -/
def scriptedParse {α : Type} (first second : PageResponse α) :
    HttpResponse → Except GoError (PageResponse α) := fun respData =>
  if respData.body = "p1" then .ok first
  else if respData.body = "p2" then .ok second
  else .error (GoError.external "unexpected end of JSON input")

/-- A sample job with identifier `id`. -/
def sampleJob (id : String) : Job :=
  { JobId := id, Name := "job " ++ id, Location := "myCluster", GroupId := "g1",
    Servers := ["10.0.0.1"], Enabled := 1, Stat := 0, rest := "" }

/-- The remote answering `200` with body `"p1"` for page 1 and with body `"p2"`
for page 2. -/
def twoPages : HttpClient := scriptedClient ⟨200, "p1"⟩ ⟨200, "p2"⟩

/-- The sequence of pages that is `first` at index 1 and `second` elsewhere. -/
def pagesOf {α : Type} (first second : PageResponse α) : Nat → PageResponse α :=
  fun i => if i = 1 then first else second

/-- A remote that answers every request with the status `status` and the body
`"job"`. -/
def statusClient (status : Int) : HttpClient := fun _ _ => .ok ⟨status, "job"⟩

/-- A decoder that reads every body as the sample job `a`. -/
def sampleJSON : HttpResponse → Except String Job := fun _ => .ok (sampleJob "a")

/-- A constructor of another backend, which reports that its store cannot be
reached. -/
def unreachableBackend : Initialize NgCloudStorageDriver := fun _ =>
  some (none, some (GoError.external "zookeeper: no servers available"))

/-- Parameters that give `hosts` and nothing else. -/
def hostsOnly : Parameters := fun key =>
  if key = "hosts" then some (Value.string "127.0.0.1:2379") else none

/-- Parameters that give `hosts` and an `apiurl` the URL parser rejects. -/
def hostsAndBadURL : Parameters := fun key =>
  if key = "hosts" then some (Value.string "127.0.0.1:2379")
  else if key = "apiurl" then some (Value.string "http://[::1")
  else none

/-- Parameters that give `hosts` and a well formed `apiurl`. -/
def hostsAndURL : Parameters := fun key =>
  if key = "hosts" then some (Value.string "127.0.0.1:2379")
  else if key = "apiurl" then some (Value.string "registry:8080")
  else none

/-- A stand-in for `url.Parse`: it rejects `http://[::1`, where the bracket of
the host is not closed, and reads any other text as a host. -/
def sampleURLParse (raw : String) : Option URL :=
  if raw = "http://[::1" then none else some ⟨"", raw, "/", ""⟩

end CloudTask

namespace CloudTask

/-! ## The paging loop -/

section Loop

variable {α : Type} (client : HttpClient)
  (parse : HttpResponse → Except GoError (PageResponse α))

theorem Query.set_set (query : Query) (key : String) (a b : List String) :
    (query.set key a).set key b = query.set key b := by
  funext k
  by_cases h : k = key <;> simp [Query.set, h]

/-- The loop overwrites `query["pageIndex"]` before it reads it. -/
theorem pageLoop_set_pageIndex (fuel : Nat) (query : Query) (v : List String)
    (pageIndex : Int) (jobs : List α) (sent : List Query) :
    pageLoop client parse fuel (query.set "pageIndex" v) pageIndex jobs sent =
      pageLoop client parse fuel query pageIndex jobs sent := by
  cases fuel with
  | zero => rfl
  | succ n => simp only [pageLoop, Query.set_set]

/-- What `pageAt` being some page says about the response. -/
theorem pageAt_eq_some {query : Query} {i : Nat} {pg : PageResponse α}
    (h : pageAt client parse query i = some pg) :
    ∃ respData, client "/sys_jobs" (pageQuery query i) = .ok respData ∧
      ¬ respData.StatusCode ≥ StatusBadRequest ∧ parse respData = .ok pg := by
  unfold pageAt at h
  split at h
  · exact absurd h (by simp)
  · rename_i respData hget
    split at h
    · exact absurd h (by simp)
    · rename_i hst
      split at h
      · exact absurd h (by simp)
      · rename_i respJobs hparse
        refine ⟨respData, hget, hst, ?_⟩
        rw [hparse]
        simp only [Option.some.injEq] at h
        rw [h]

/-- One iteration on a page that does not complete the fetch. -/
theorem pageLoop_advance {query : Query} {i : Nat} {pg : PageResponse α}
    (hpage : pageAt client parse query i = some pg) (jobs : List α)
    (hne : ((jobs ++ pg.Jobs).length : Int) ≠ pg.TotalRows) (fuel : Nat)
    (sent : List Query) :
    pageLoop client parse (fuel + 1) query (i : Int) jobs sent =
      pageLoop client parse fuel query ((i + 1 : Nat) : Int) (jobs ++ pg.Jobs)
        (sent ++ [pageQuery query i]) := by
  obtain ⟨respData, hget, hst, hparse⟩ := pageAt_eq_some client parse hpage
  unfold pageQuery at hget
  rw [pageLoop]
  simp only [hget, hst, hparse, if_false, hne, if_true, ne_eq, not_false_eq_true]
  rw [pageLoop_set_pageIndex]
  rfl

/-- One iteration on the page that completes the fetch. -/
theorem pageLoop_done {query : Query} {i : Nat} {pg : PageResponse α}
    (hpage : pageAt client parse query i = some pg) (jobs : List α)
    (heq : ((jobs ++ pg.Jobs).length : Int) = pg.TotalRows) (fuel : Nat)
    (sent : List Query) :
    pageLoop client parse (fuel + 1) query (i : Int) jobs sent =
      ⟨sent ++ [pageQuery query i], some (some (jobs ++ pg.Jobs), none)⟩ := by
  obtain ⟨respData, hget, hst, hparse⟩ := pageAt_eq_some client parse hpage
  unfold pageQuery at hget
  rw [pageLoop]
  simp only [hget, hst, hparse, if_false, heq, ne_eq, not_true_eq_false]
  rfl

/-- One iteration on a page whose request fails at transport level. -/
theorem pageLoop_transport {query : Query} {i : Nat} {err : String}
    (hget : client "/sys_jobs" (pageQuery query i) = .error err) (jobs : List α)
    (fuel : Nat) (sent : List Query) :
    pageLoop client parse (fuel + 1) query (i : Int) jobs sent =
      ⟨sent ++ [pageQuery query i], some (none, some (GoError.external err))⟩ := by
  unfold pageQuery at hget
  rw [pageLoop]
  simp only [hget]
  rfl

theorem pageQueries_succ (query : Query) (n : Nat) :
    pageQueries query (n + 1) = pageQueries query n ++ [pageQuery query (n + 1)] := by
  simp [pageQueries, List.range'_concat, Nat.add_comm]

/-- The loop through `n` pages none of which completes the fetch. -/
theorem pageLoop_incomplete {query : Query} {page : Nat → PageResponse α} (n : Nat)
    (h : Incomplete client parse query page n) (fuel : Nat) :
    pageLoop client parse (fuel + n) query 1 [] [] =
      pageLoop client parse fuel query ((n + 1 : Nat) : Int) (concatPages page n)
        (pageQueries query n) := by
  induction n generalizing fuel with
  | zero => simp [concatPages, pageQueries]
  | succ n ih =>
    have hn : Incomplete client parse query page n :=
      fun i h1 h2 => h i h1 (Nat.le_succ_of_le h2)
    have hstep := h (n + 1) (Nat.succ_le_succ (Nat.zero_le n)) (Nat.le_refl _)
    have e : fuel + (n + 1) = (fuel + 1) + n := by omega
    rw [e, ih hn (fuel + 1)]
    rw [pageLoop_advance client parse hstep.1 (concatPages page n) hstep.2 fuel,
      pageQueries_succ]
    rfl

/-- The loop returns at the first page whose total equals the accumulated
size. -/
theorem pageLoop_stops {query : Query} {page : Nat → PageResponse α} (k : Nat)
    (hk : 1 ≤ k) (hinc : Incomplete client parse query page (k - 1))
    (hpage : pageAt client parse query k = some (page k))
    (heq : ((concatPages page k).length : Int) = (page k).TotalRows) :
    StopsAt (fun fuel => pageLoop client parse fuel query 1 [] []) query k
      (concatPages page k) := by
  constructor
  · intro fuel hfuel
    have hf : Incomplete client parse query page fuel :=
      fun i h1 h2 => hinc i h1 (by omega)
    have := pageLoop_incomplete client parse fuel hf 0
    simp only [Nat.zero_add] at this
    simp only [this]
    rfl
  · intro fuel hfuel
    obtain ⟨m, rfl⟩ : ∃ m, k = m + 1 := ⟨k - 1, by omega⟩
    obtain ⟨d, rfl⟩ : ∃ d, fuel = (d + 1) + m := ⟨fuel - (m + 1), by omega⟩
    simp only [Nat.add_sub_cancel] at hinc
    show pageLoop client parse (d + 1 + m) query 1 [] [] = _
    rw [pageLoop_incomplete client parse m hinc (d + 1)]
    rw [pageLoop_done client parse hpage (concatPages page m) heq d, pageQueries_succ]
    rfl

theorem pageLoop_never_aux {query : Query} {page : Nat → PageResponse α} {fuel : Nat}
    (hinc : Incomplete client parse query page fuel) :
    (pageLoop client parse fuel query 1 [] []).returned = none := by
  have := pageLoop_incomplete client parse fuel hinc 0
  simp only [Nat.zero_add] at this
  rw [this]
  rfl

/-- The loop does not return when no page completes the fetch. -/
theorem pageLoop_never {query : Query} {page : Nat → PageResponse α}
    (hinc : ∀ n, Incomplete client parse query page n) :
    NeverReturns (fun fuel => pageLoop client parse fuel query 1 [] []) query := by
  intro fuel
  have := pageLoop_incomplete client parse fuel (hinc fuel) 0
  simp only [Nat.zero_add] at this
  simp only [this]
  rfl

/-- One iteration on a page that is not served: the loop returns an error and
a `nil` slice. -/
theorem pageLoop_fail {query : Query} {i : Nat}
    (hpage : pageAt client parse query i = none) (jobs : List α) (fuel : Nat)
    (sent : List Query) :
    ∃ err, pageLoop client parse (fuel + 1) query (i : Int) jobs sent =
      ⟨sent ++ [pageQuery query i], some (none, some err)⟩ := by
  unfold pageAt at hpage
  rw [pageLoop]
  unfold pageQuery at hpage
  split at hpage
  · rename_i err hget
    exact ⟨GoError.external err, rfl⟩
  · rename_i respData hget
    split at hpage
    · rename_i hst
      exact ⟨_, by simp only [hst, if_true]; rfl⟩
    · rename_i hst
      split at hpage
      · rename_i err hparse
        exact ⟨err, by simp only [hst, if_false]; rfl⟩
      · exact absurd hpage (by simp)

theorem pageAt_servedPage {query : Query} {i : Nat} {pg : PageResponse α}
    (h : pageAt client parse query i = some pg) :
    pageAt client parse query i = some (servedPage client parse query i) := by
  simp [servedPage, h]

/-- Up to any page `n`: either no page so far completes the fetch, or there is
a first page at which the fetch fails or completes. -/
theorem pages_cases (query : Query) (n : Nat) :
    Incomplete client parse query (servedPage client parse query) n ∨
      ∃ k, 1 ≤ k ∧ k ≤ n ∧
        Incomplete client parse query (servedPage client parse query) (k - 1) ∧
        (pageAt client parse query k = none ∨
          (pageAt client parse query k = some (servedPage client parse query k) ∧
            ((concatPages (servedPage client parse query) k).length : Int) =
              (servedPage client parse query k).TotalRows)) := by
  induction n with
  | zero => exact Or.inl (fun i h1 h2 => absurd h1 (by omega))
  | succ n ih =>
    rcases ih with hinc | ⟨k, h1, h2, h3, h4⟩
    · cases hp : pageAt client parse query (n + 1) with
      | none => exact Or.inr ⟨n + 1, by omega, le_refl _, by simpa using hinc, Or.inl hp⟩
      | some pg =>
        have hs := pageAt_servedPage client parse hp
        by_cases hc : ((concatPages (servedPage client parse query) (n + 1)).length : Int) =
            (servedPage client parse query (n + 1)).TotalRows
        · exact Or.inr ⟨n + 1, by omega, le_refl _, by simpa using hinc, Or.inr ⟨hs, hc⟩⟩
        · refine Or.inl (fun i hi1 hi2 => ?_)
          rcases Nat.lt_or_ge i (n + 1) with hlt | hge
          · exact hinc i hi1 (by omega)
          · have : i = n + 1 := by omega
            subst this
            exact ⟨hs, hc⟩
    · exact Or.inr ⟨k, h1, by omega, h3, h4⟩

/-- A fetch that returns records has gone through pages `1 .. k` that were all
served, and returns their records in page order; their number is the total
reported by page `k`. -/
theorem pageLoop_returned {query : Query} {fuel : Nat} {jobs : Slice α}
    (h : (pageLoop client parse fuel query 1 [] []).returned = some (jobs, none)) :
    ∃ k, ∃ page : Nat → PageResponse α, 1 ≤ k ∧ k ≤ fuel ∧
      (∀ i, 1 ≤ i → i ≤ k → pageAt client parse query i = some (page i)) ∧
      (∀ i, 1 ≤ i → i < k → ((concatPages page i).length : Int) ≠ (page i).TotalRows) ∧
      (pageLoop client parse fuel query 1 [] []).requests = pageQueries query k ∧
      jobs = some (concatPages page k) ∧
      ((concatPages page k).length : Int) = (page k).TotalRows := by
  rcases pages_cases client parse query fuel with hinc | ⟨k, h1, h2, hinc, hk⟩
  · have := pageLoop_never_aux client parse hinc
    rw [this] at h
    exact absurd h (by simp)
  · obtain ⟨m, rfl⟩ : ∃ m, k = m + 1 := ⟨k - 1, by omega⟩
    simp only [Nat.add_sub_cancel] at hinc
    rcases hk with hnone | ⟨hsome, hlen⟩
    · obtain ⟨d, rfl⟩ : ∃ d, fuel = (d + 1) + m := ⟨fuel - (m + 1), by omega⟩
      obtain ⟨err, herr⟩ := pageLoop_fail client parse hnone
        (concatPages (servedPage client parse query) m) d (pageQueries query m)
      rw [pageLoop_incomplete client parse m hinc (d + 1), herr] at h
      exact absurd h (by simp)
    · have hstop := pageLoop_stops client parse (m + 1) h1
        (by simpa using hinc) hsome hlen
      have hrun := hstop.2 fuel h2
      simp only at hrun
      rw [hrun] at h ⊢
      refine ⟨m + 1, servedPage client parse query, h1, h2, ?_, ?_, rfl, ?_, hlen⟩
      · intro i hi1 hi2
        rcases Nat.lt_or_ge i (m + 1) with hlt | hge
        · exact (hinc i hi1 (by omega)).1
        · have : i = m + 1 := by omega
          subst this
          exact hsome
      · intro i hi1 hi2
        exact (hinc i hi1 (by omega)).2
      · simp only [Option.some.injEq, Prod.mk.injEq, and_true] at h
        exact h.symm

/-- The loop returns the transport error of the first page whose request
fails, and a `nil` slice. -/
theorem pageLoop_transport_at {query : Query} {page : Nat → PageResponse α} {k : Nat}
    {err : String} (hk : 1 ≤ k) (h : TransportFailsAt client parse query page k err)
    {fuel : Nat} (hfuel : k ≤ fuel) :
    pageLoop client parse fuel query 1 [] [] =
      ⟨pageQueries query k, some (none, some (GoError.external err))⟩ := by
  obtain ⟨m, rfl⟩ : ∃ m, k = m + 1 := ⟨k - 1, by omega⟩
  obtain ⟨d, rfl⟩ : ∃ d, fuel = (d + 1) + m := ⟨fuel - (m + 1), by omega⟩
  obtain ⟨hinc, hget⟩ := h
  simp only [Nat.add_sub_cancel] at hinc
  rw [pageLoop_incomplete client parse m hinc (d + 1),
    pageLoop_transport client parse hget, pageQueries_succ]

theorem concatPages_pageOfRecords (records : List α) (s k : Nat) :
    concatPages (pageOfRecords records s) k = records.take (k * s) := by
  induction k with
  | zero => simp [concatPages]
  | succ k ih =>
    simp only [concatPages, ih, pageOfRecords, Nat.add_sub_cancel]
    rw [Nat.succ_mul, List.take_add]

theorem mul_lt_of_lt_pagesNeeded {R s i : Nat} (hs : 1 ≤ s) (h1 : 1 ≤ i)
    (hi : i < pagesNeeded R s) : i * s < R := by
  unfold pagesNeeded at hi
  have hq : i + 1 ≤ (R + s - 1) / s := by omega
  have h2 := Nat.mul_le_mul_right s hq
  have h3 := Nat.div_mul_le_self (R + s - 1) s
  rw [Nat.add_mul, Nat.one_mul] at h2
  omega

theorem le_pagesNeeded_mul {R s : Nat} (hs : 1 ≤ s) : R ≤ pagesNeeded R s * s := by
  unfold pagesNeeded
  have h1 := Nat.lt_div_mul_add (a := R + s - 1) (b := s) (by omega)
  have h2 : (R + s - 1) / s * s ≤ max 1 ((R + s - 1) / s) * s :=
    Nat.mul_le_mul_right s (le_max_right _ _)
  omega

/-- A consistent remote: the loop returns the records after `pagesNeeded`
requests. -/
theorem pageLoop_consistent {query : Query} {records : List α} {s : Nat} (hs : 1 ≤ s)
    (h : ConsistentRemote client parse query records s) :
    StopsAt (fun fuel => pageLoop client parse fuel query 1 [] []) query
      (pagesNeeded records.length s) records := by
  have hP : 1 ≤ pagesNeeded records.length s := le_max_left _ _
  have hstop := @pageLoop_stops α client parse query (pageOfRecords records s)
    (pagesNeeded records.length s) hP ?_ (h _ hP (le_refl _)) ?_
  · rw [concatPages_pageOfRecords, List.take_of_length_le (le_pagesNeeded_mul hs)] at hstop
    exact hstop
  · intro i h1 h2
    refine ⟨h i h1 (by omega), ?_⟩
    have hlt := mul_lt_of_lt_pagesNeeded hs h1 (show i < pagesNeeded records.length s by omega)
    rw [concatPages_pageOfRecords, List.length_take]
    simp only [pageOfRecords]
    omega
  · rw [concatPages_pageOfRecords, List.take_of_length_le (le_pagesNeeded_mul hs)]
    rfl

/-- What the fetch returns, once it returns, does not depend on the bound. -/
theorem StopsAt.returned_eq {run : Nat → FetchRun α} {query : Query} {k : Nat}
    {jobs : List α} (h : StopsAt run query k jobs) {fuel : Nat} {out : Slice α × Option GoError}
    (hout : (run fuel).returned = some out) : out = (some jobs, none) := by
  rcases Nat.lt_or_ge fuel k with hlt | hge
  · rw [h.1 fuel hlt] at hout
    exact absurd hout (by simp)
  · rw [h.2 fuel hge] at hout
    simp only [Option.some.injEq] at hout
    exact hout.symm

end Loop

end CloudTask

namespace CloudTask

/-! ## Collection reads -/

/-- C10: for every sequence of successful page responses, `readJobs` and
`readSimpleJobs` return at the least page `k` at which the accumulated size
equals the total reported on page `k` itself, with the concatenation of the
pages `1 .. k`, having requested the pages `1 .. k` and no other; and when no
page has that property the fetch never returns. -/
theorem fetch_stops_at_least_matching_page (client : HttpClient)
    (parseJobsResponse : HttpResponse → Except GoError (PageResponse Job))
    (parseSimpleJobsResponse : HttpResponse → Except GoError (PageResponse SimpleJob))
    (query : Query) :
    (∀ (page : Nat → PageResponse Job) (k : Nat), 1 ≤ k →
      Incomplete client parseJobsResponse query page (k - 1) →
      pageAt client parseJobsResponse query k = some (page k) →
      ((concatPages page k).length : Int) = (page k).TotalRows →
      StopsAt (fun fuel => readJobs client parseJobsResponse fuel query) query k
        (concatPages page k)) ∧
    (∀ page : Nat → PageResponse Job,
      (∀ n, Incomplete client parseJobsResponse query page n) →
      NeverReturns (fun fuel => readJobs client parseJobsResponse fuel query) query) ∧
    (∀ (page : Nat → PageResponse SimpleJob) (k : Nat), 1 ≤ k →
      Incomplete client parseSimpleJobsResponse (query.set "fields" simpleJobFields) page
        (k - 1) →
      pageAt client parseSimpleJobsResponse (query.set "fields" simpleJobFields) k =
        some (page k) →
      ((concatPages page k).length : Int) = (page k).TotalRows →
      StopsAt (fun fuel => readSimpleJobs client parseSimpleJobsResponse fuel query)
        (query.set "fields" simpleJobFields) k (concatPages page k)) ∧
    (∀ page : Nat → PageResponse SimpleJob,
      (∀ n, Incomplete client parseSimpleJobsResponse (query.set "fields" simpleJobFields)
        page n) →
      NeverReturns (fun fuel => readSimpleJobs client parseSimpleJobsResponse fuel query)
        (query.set "fields" simpleJobFields)) :=
  ⟨fun _ k hk hinc hpage heq => pageLoop_stops client parseJobsResponse k hk hinc hpage heq,
    fun _ hinc => pageLoop_never client parseJobsResponse hinc,
    fun _ k hk hinc hpage heq =>
      pageLoop_stops client parseSimpleJobsResponse k hk hinc hpage heq,
    fun _ hinc => pageLoop_never client parseSimpleJobsResponse hinc⟩

/-- A remote whose total drifts from 3 on page 1 to 2 on page 2: the fetch
follows the total of page 2 and returns both records at page 2. -/
theorem drift_incomplete :
    Incomplete twoPages
      (scriptedParse ⟨[sampleJob "a"], 3⟩ ⟨[sampleJob "b"], 2⟩) Query.empty
      (pagesOf ⟨[sampleJob "a"], 3⟩ ⟨[sampleJob "b"], 2⟩) 1 := by
  intro i h1 h2
  obtain rfl : i = 1 := by omega
  exact ⟨rfl, by decide⟩

/-- A remote that serves one record and the total 0 on every page: the
accumulated size is never the total. -/
theorem stuck_incomplete (n : Nat) :
    Incomplete (fun _ _ => .ok ⟨200, ""⟩)
      (fun _ => .ok ⟨[sampleJob "a"], 0⟩) Query.empty
      (fun _ => ⟨[sampleJob "a"], 0⟩) n := by
  intro i h1 _
  refine ⟨rfl, ?_⟩
  have hlen : ∀ m, (concatPages (fun _ => (⟨[sampleJob "a"], 0⟩ : PageResponse Job)) m).length
      = m := by
    intro m
    induction m with
    | zero => rfl
    | succ m ih => simp [concatPages, ih]
  rw [hlen]
  show (i : Int) ≠ 0
  omega

/-- Witness of C10: a two page fetch with a drifting total, and a fetch that
never returns. -/
theorem fetch_stops_at_least_matching_page_witness :
    StopsAt (fun fuel => readJobs twoPages
        (scriptedParse ⟨[sampleJob "a"], 3⟩ ⟨[sampleJob "b"], 2⟩) fuel Query.empty)
      Query.empty 2 [sampleJob "a", sampleJob "b"] ∧
    NeverReturns (fun fuel => readJobs (fun _ _ => .ok ⟨200, ""⟩)
        (fun _ => .ok ⟨[sampleJob "a"], 0⟩) fuel Query.empty) Query.empty :=
  ⟨(fetch_stops_at_least_matching_page twoPages
      (scriptedParse ⟨[sampleJob "a"], 3⟩ ⟨[sampleJob "b"], 2⟩)
      (scriptedParse ⟨[], 0⟩ ⟨[], 0⟩) Query.empty).1
      (pagesOf ⟨[sampleJob "a"], 3⟩ ⟨[sampleJob "b"], 2⟩) 2 (by decide)
      drift_incomplete rfl (by decide),
    (fetch_stops_at_least_matching_page (fun _ _ => .ok ⟨200, ""⟩)
      (fun _ => .ok ⟨[sampleJob "a"], 0⟩) (fun _ => .ok ⟨[], 0⟩) Query.empty).2.1
      (fun _ => ⟨[sampleJob "a"], 0⟩) stuck_incomplete⟩

/-- C3: when the pages `1 .. k-1` succeed without completing the fetch and the
request for page `k` fails at transport level, `readJobs` and `readSimpleJobs`
return that error and a `nil` slice (nothing of the pages accumulated before),
having sent the queries of the pages `1 .. k`; the accessors `GetJobs`,
`GetStateJobs`, `GetLocationJobs`, `GetGroupJobs` and `GetLocationSimpleJobs`
return an empty slice that is not `nil`. -/
theorem transport_failure_discards_pages (client : HttpClient)
    (parseJobsResponse : HttpResponse → Except GoError (PageResponse Job))
    (parseSimpleJobsResponse : HttpResponse → Except GoError (PageResponse SimpleJob))
    (k fuel : Nat) (hk : 1 ≤ k) (hfuel : k ≤ fuel) (err : String) :
    (∀ query page, TransportFailsAt client parseJobsResponse query page k err →
      readJobs client parseJobsResponse fuel query =
        ⟨pageQueries query k, some (none, some (GoError.external err))⟩) ∧
    (∀ query page,
      TransportFailsAt client parseSimpleJobsResponse (query.set "fields" simpleJobFields)
        page k err →
      readSimpleJobs client parseSimpleJobsResponse fuel query =
        ⟨pageQueries (query.set "fields" simpleJobFields) k,
          some (none, some (GoError.external err))⟩) ∧
    (∀ page, TransportFailsAt client parseJobsResponse Query.empty page k err →
      (GetJobs client parseJobsResponse fuel).result = some (some [])) ∧
    (∀ state page,
      TransportFailsAt client parseJobsResponse (Query.empty.set "f_stat" [Itoa state])
        page k err →
      (GetStateJobs client parseJobsResponse fuel state).result = some (some [])) ∧
    (∀ location page,
      TransportFailsAt client parseJobsResponse (Query.empty.set "f_location" [location])
        page k err →
      (GetLocationJobs client parseJobsResponse fuel location).result = some (some [])) ∧
    (∀ groupid page,
      TransportFailsAt client parseJobsResponse (Query.empty.set "f_groupid" [groupid])
        page k err →
      (GetGroupJobs client parseJobsResponse fuel groupid).result = some (some [])) ∧
    (∀ location page,
      TransportFailsAt client parseSimpleJobsResponse
        ((Query.empty.set "f_location" [location]).set "fields" simpleJobFields)
        page k err →
      (GetLocationSimpleJobs client parseSimpleJobsResponse fuel location).result =
        some (some [])) := by
  have hjobs : ∀ query page, TransportFailsAt client parseJobsResponse query page k err →
      readJobs client parseJobsResponse fuel query =
        ⟨pageQueries query k, some (none, some (GoError.external err))⟩ :=
    fun query page h => pageLoop_transport_at client parseJobsResponse hk h hfuel
  refine ⟨hjobs, ?_, fun page h => ?_, fun state page h => ?_, fun location page h => ?_,
    fun groupid page h => ?_, ?_⟩
  · exact fun query page h => pageLoop_transport_at client parseSimpleJobsResponse hk h hfuel
  · simp only [GetJobs, hjobs _ page h]
  · simp only [GetStateJobs, hjobs _ page h]
  · simp only [GetLocationJobs, hjobs _ page h]
  · simp only [GetGroupJobs, hjobs _ page h]
  · intro location page h
    have hrun := pageLoop_transport_at client parseSimpleJobsResponse hk h hfuel
    simp only [GetLocationSimpleJobs, readSimpleJobs, hrun]

/-- Two pages of one record each with total 3, then a transport failure on
page 3. -/
theorem failing_third_page (query : Query) :
    TransportFailsAt twoPages
      (scriptedParse ⟨[sampleJob "a"], 3⟩ ⟨[sampleJob "b"], 3⟩) query
      (pagesOf ⟨[sampleJob "a"], 3⟩ ⟨[sampleJob "b"], 3⟩) 3 "connection refused" := by
  refine ⟨?_, ?_⟩
  · intro i h1 h2
    have hi : i = 1 ∨ i = 2 := by omega
    rcases hi with rfl | rfl
    · exact ⟨rfl, by decide⟩
    · exact ⟨rfl, by decide⟩
  · rfl

/-- Witness of C3: the third page fails at transport level after two pages of
one record each; `readJobs` returns the error and `nil`, `GetJobs` and
`GetGroupJobs` an empty slice. -/
theorem transport_failure_discards_pages_witness :
    readJobs twoPages (scriptedParse ⟨[sampleJob "a"], 3⟩ ⟨[sampleJob "b"], 3⟩) 5
        Query.empty =
      ⟨pageQueries Query.empty 3, some (none, some (GoError.external "connection refused"))⟩ ∧
    (GetJobs twoPages (scriptedParse ⟨[sampleJob "a"], 3⟩ ⟨[sampleJob "b"], 3⟩) 5).result =
      some (some []) ∧
    (GetGroupJobs twoPages (scriptedParse ⟨[sampleJob "a"], 3⟩ ⟨[sampleJob "b"], 3⟩) 5
      "g1").result = some (some []) :=
  have h := transport_failure_discards_pages twoPages
    (scriptedParse ⟨[sampleJob "a"], 3⟩ ⟨[sampleJob "b"], 3⟩) (scriptedParse ⟨[], 0⟩ ⟨[], 0⟩)
    3 5 (by decide) (by decide) "connection refused"
  ⟨h.1 _ _ (failing_third_page _), h.2.2.1 _ (failing_third_page _),
    h.2.2.2.2.2.1 "g1" _ (failing_third_page _)⟩

/-- C1: for every page size `s ≥ 1` and every list of records with pairwise
distinct job identifiers served by a consistent remote, `readJobs` and
`readSimpleJobs` return exactly those records, in the source order and without
duplicates, after exactly `max(1, ceil(R / s))` page requests, sent for the
pages 1, 2, ... in increasing order. -/
theorem consistent_remote_returns_all_records (client : HttpClient)
    (parseJobsResponse : HttpResponse → Except GoError (PageResponse Job))
    (parseSimpleJobsResponse : HttpResponse → Except GoError (PageResponse SimpleJob))
    (query : Query) (s : Nat) (hs : 1 ≤ s) :
    (∀ records : List Job, (records.map Job.JobId).Nodup →
      ConsistentRemote client parseJobsResponse query records s →
      StopsAt (fun fuel => readJobs client parseJobsResponse fuel query) query
        (pagesNeeded records.length s) records ∧
      ∀ fuel jobs err,
        (readJobs client parseJobsResponse fuel query).returned = some (jobs, err) →
        err = none ∧ jobs = some records ∧
          ∃ l, jobs = some l ∧ (l.map Job.JobId).Nodup ∧ l.length = records.length) ∧
    (∀ records : List SimpleJob, (records.map SimpleJob.JobId).Nodup →
      ConsistentRemote client parseSimpleJobsResponse (query.set "fields" simpleJobFields)
        records s →
      StopsAt (fun fuel => readSimpleJobs client parseSimpleJobsResponse fuel query)
        (query.set "fields" simpleJobFields) (pagesNeeded records.length s) records ∧
      ∀ fuel jobs err,
        (readSimpleJobs client parseSimpleJobsResponse fuel query).returned =
          some (jobs, err) →
        err = none ∧ jobs = some records ∧
          ∃ l, jobs = some l ∧ (l.map SimpleJob.JobId).Nodup ∧
            l.length = records.length) := by
  constructor
  · intro records hnodup hremote
    have hstop := pageLoop_consistent client parseJobsResponse hs hremote
    refine ⟨hstop, fun fuel jobs err hret => ?_⟩
    have := StopsAt.returned_eq hstop hret
    simp only [Prod.mk.injEq] at this
    obtain ⟨rfl, rfl⟩ := this
    exact ⟨rfl, rfl, records, rfl, hnodup, rfl⟩
  · intro records hnodup hremote
    have hstop := pageLoop_consistent client parseSimpleJobsResponse hs hremote
    refine ⟨hstop, fun fuel jobs err hret => ?_⟩
    have := StopsAt.returned_eq hstop hret
    simp only [Prod.mk.injEq] at this
    obtain ⟨rfl, rfl⟩ := this
    exact ⟨rfl, rfl, records, rfl, hnodup, rfl⟩

/-- Three records served in pages of two. -/
theorem three_records_consistent :
    ConsistentRemote twoPages
      (scriptedParse ⟨[sampleJob "a", sampleJob "b"], 3⟩ ⟨[sampleJob "c"], 3⟩) Query.empty
      [sampleJob "a", sampleJob "b", sampleJob "c"] 2 := by
  intro i h1 h2
  have hi : i = 1 ∨ i = 2 := by
    have h3 : pagesNeeded [sampleJob "a", sampleJob "b", sampleJob "c"].length 2 = 2 := by
      decide
    rw [h3] at h2
    omega
  rcases hi with rfl | rfl <;> rfl

/-- Witness of C1: three records, page size two, two page requests. -/
theorem consistent_remote_returns_all_records_witness :
    (1 ≤ 2) ∧
    ([sampleJob "a", sampleJob "b", sampleJob "c"].map Job.JobId).Nodup ∧
    ConsistentRemote twoPages
      (scriptedParse ⟨[sampleJob "a", sampleJob "b"], 3⟩ ⟨[sampleJob "c"], 3⟩) Query.empty
      [sampleJob "a", sampleJob "b", sampleJob "c"] 2 ∧
    pagesNeeded 3 2 = 2 ∧
    StopsAt (fun fuel => readJobs twoPages
        (scriptedParse ⟨[sampleJob "a", sampleJob "b"], 3⟩ ⟨[sampleJob "c"], 3⟩) fuel
        Query.empty) Query.empty 2 [sampleJob "a", sampleJob "b", sampleJob "c"] :=
  ⟨by decide, by decide, three_records_consistent, by decide,
    ((consistent_remote_returns_all_records twoPages
      (scriptedParse ⟨[sampleJob "a", sampleJob "b"], 3⟩ ⟨[sampleJob "c"], 3⟩)
      (scriptedParse ⟨[], 0⟩ ⟨[], 0⟩) Query.empty 2 (by decide)).1
      [sampleJob "a", sampleJob "b", sampleJob "c"] (by decide) three_records_consistent).1⟩

/-- C2, as stated, fails: the remote serves the record `a` with the total 5 on
page 1 and the same record with the total 2 on page 2; `readJobs` returns
successfully two records with the same identifier, and 2 is not the total 5
reported by the first page. -/
theorem returned_records_repeat_and_miss_first_total :
    (readJobs twoPages (scriptedParse ⟨[sampleJob "a"], 5⟩ ⟨[sampleJob "a"], 2⟩) 2
        Query.empty).returned = some (some [sampleJob "a", sampleJob "a"], none) ∧
    (pageAt twoPages (scriptedParse ⟨[sampleJob "a"], 5⟩ ⟨[sampleJob "a"], 2⟩)
        Query.empty 1).map PageResponse.TotalRows = some 5 ∧
    ¬ ([sampleJob "a", sampleJob "a"].map Job.JobId).Nodup ∧
    (([sampleJob "a", sampleJob "a"].length : Int) ≠ 5) :=
  ⟨by decide, by decide, by decide, by decide⟩

/-- C2, amended: when `readJobs` or `readSimpleJobs` returns successfully, it
has requested the pages `1 .. k` for some `k ≥ 1`, all of them served; the
returned records are the records of those pages in page order, nothing added
and nothing removed, and their number is the total reported by the last page
requested, page `k`, and by no earlier page. -/
theorem returned_records_are_the_pages (client : HttpClient)
    (parseJobsResponse : HttpResponse → Except GoError (PageResponse Job))
    (parseSimpleJobsResponse : HttpResponse → Except GoError (PageResponse SimpleJob))
    (query : Query) (fuel : Nat) :
    (∀ jobs : Slice Job,
      (readJobs client parseJobsResponse fuel query).returned = some (jobs, none) →
      ∃ k, ∃ page : Nat → PageResponse Job, 1 ≤ k ∧ k ≤ fuel ∧
        (∀ i, 1 ≤ i → i ≤ k → pageAt client parseJobsResponse query i = some (page i)) ∧
        (∀ i, 1 ≤ i → i < k → ((concatPages page i).length : Int) ≠ (page i).TotalRows) ∧
        (readJobs client parseJobsResponse fuel query).requests = pageQueries query k ∧
        jobs = some (concatPages page k) ∧
        ((concatPages page k).length : Int) = (page k).TotalRows) ∧
    (∀ jobs : Slice SimpleJob,
      (readSimpleJobs client parseSimpleJobsResponse fuel query).returned =
        some (jobs, none) →
      ∃ k, ∃ page : Nat → PageResponse SimpleJob, 1 ≤ k ∧ k ≤ fuel ∧
        (∀ i, 1 ≤ i → i ≤ k →
          pageAt client parseSimpleJobsResponse (query.set "fields" simpleJobFields) i =
            some (page i)) ∧
        (∀ i, 1 ≤ i → i < k → ((concatPages page i).length : Int) ≠ (page i).TotalRows) ∧
        (readSimpleJobs client parseSimpleJobsResponse fuel query).requests =
          pageQueries (query.set "fields" simpleJobFields) k ∧
        jobs = some (concatPages page k) ∧
        ((concatPages page k).length : Int) = (page k).TotalRows) :=
  ⟨fun _ h => pageLoop_returned client parseJobsResponse h,
    fun _ h => pageLoop_returned client parseSimpleJobsResponse h⟩

/-- Witness of the amended C2, at the remote of the counterexample. -/
theorem returned_records_are_the_pages_witness :
    (readJobs twoPages (scriptedParse ⟨[sampleJob "a"], 5⟩ ⟨[sampleJob "a"], 2⟩) 2
        Query.empty).returned = some (some [sampleJob "a", sampleJob "a"], none) ∧
    ∃ k, ∃ page : Nat → PageResponse Job, 1 ≤ k ∧ k ≤ 2 ∧
      (∀ i, 1 ≤ i → i ≤ k →
        pageAt twoPages (scriptedParse ⟨[sampleJob "a"], 5⟩ ⟨[sampleJob "a"], 2⟩)
          Query.empty i = some (page i)) ∧
      (∀ i, 1 ≤ i → i < k → ((concatPages page i).length : Int) ≠ (page i).TotalRows) ∧
      (readJobs twoPages (scriptedParse ⟨[sampleJob "a"], 5⟩ ⟨[sampleJob "a"], 2⟩) 2
        Query.empty).requests = pageQueries Query.empty k ∧
      some [sampleJob "a", sampleJob "a"] = some (concatPages page k) ∧
      ((concatPages page k).length : Int) = (page k).TotalRows :=
  ⟨by decide,
    (returned_records_are_the_pages twoPages
      (scriptedParse ⟨[sampleJob "a"], 5⟩ ⟨[sampleJob "a"], 2⟩)
      (scriptedParse ⟨[], 0⟩ ⟨[], 0⟩) Query.empty 2).1 _ (by decide)⟩

/-! ## The driver registry -/

theorem mapGet_mapSet_self {ν : Type} (entries : List (String × ν)) (key : String)
    (value : ν) : mapGet (mapSet entries key value) key = some value := by
  induction entries with
  | nil => simp [mapSet, mapGet]
  | cons e rest ih =>
    obtain ⟨k, v⟩ := e
    by_cases h : k = key
    · simp [mapSet, mapGet, h]
    · simp [mapSet, mapGet, h, ih]

theorem mapGet_mapSet_ne {ν : Type} (entries : List (String × ν)) (key other : String)
    (value : ν) (h : other ≠ key) :
    mapGet (mapSet entries key value) other = mapGet entries other := by
  have h' : ¬ key = other := fun e => h e.symm
  induction entries with
  | nil => simp [mapSet, mapGet, h']
  | cons e rest ih =>
    obtain ⟨k, v⟩ := e
    by_cases hk : k = key
    · subst hk
      simp [mapSet, mapGet, h']
    · by_cases ho : k = other
      · subst ho
        simp [mapSet, mapGet, h]
      · simp [mapSet, mapGet, hk, ho, ih]

/-- C4: after `AddDriver(b, c)`, `NewDriver(b, p)` returns exactly `c(p)`,
whatever the registry held before; a second registration under the same
identifier replaces the first; `AddDriver(b, c)` changes what `NewDriver`
returns for no other identifier; and a later registration under another
identifier leaves `b` with `c`.  The last registration for an identifier
wins. -/
theorem NewDriver_after_AddDriver {δ : Type} (notSupportedText : String)
    (reg : Registry δ) (b : String) (c : Initialize δ) (p : Parameters) :
    NewDriver notSupportedText (AddDriver reg b c) b p = c p ∧
    (∀ c0 : Initialize δ,
      NewDriver notSupportedText (AddDriver (AddDriver reg b c0) b c) b p = c p) ∧
    (∀ other : String, other ≠ b →
      NewDriver notSupportedText (AddDriver reg b c) other p =
        NewDriver notSupportedText reg other p) ∧
    (∀ (other : String) (c1 : Initialize δ), other ≠ b →
      NewDriver notSupportedText (AddDriver (AddDriver reg b c) other c1) b p = c p) := by
  refine ⟨?_, fun c0 => ?_, fun other h => ?_, fun other c1 h => ?_⟩
  · simp [NewDriver, AddDriver, mapGet_mapSet_self]
  · simp [NewDriver, AddDriver, mapGet_mapSet_self]
  · simp [NewDriver, AddDriver, mapGet_mapSet_ne _ _ _ _ h]
  · have hb : b ≠ other := fun e => h e.symm
    simp [NewDriver, AddDriver, mapGet_mapSet_ne _ _ _ _ hb, mapGet_mapSet_self]

/-- Witness of C4: `etcd` registered with `New`, then `zookeeper` with another
constructor; `etcd` still resolves to `New`, `zookeeper` to its own
constructor, and an identifier that was never registered is as unknown as
before. -/
theorem NewDriver_after_AddDriver_witness :
    "zookeeper" ≠ "etcd" ∧
    NewDriver "driver not supported"
        (AddDriver (AddDriver (Registry.init _) "etcd" New) "zookeeper" unreachableBackend)
        "etcd" hostsOnly = New hostsOnly ∧
    NewDriver "driver not supported"
        (AddDriver (AddDriver (Registry.init _) "etcd" New) "zookeeper" unreachableBackend)
        "zookeeper" hostsOnly = unreachableBackend hostsOnly ∧
    NewDriver "driver not supported"
        (AddDriver (AddDriver (Registry.init _) "etcd" New) "zookeeper" unreachableBackend)
        "etcd" hostsOnly ≠ unreachableBackend hostsOnly ∧
    NewDriver "driver not supported" (AddDriver (Registry.init _) "etcd" New)
        "zookeeper" hostsOnly =
      NewDriver "driver not supported" (Registry.init _) "zookeeper" hostsOnly :=
  ⟨by decide,
    (NewDriver_after_AddDriver "driver not supported" (Registry.init _) "etcd" New
      hostsOnly).2.2.2 "zookeeper" unreachableBackend (by decide),
    (NewDriver_after_AddDriver "driver not supported"
      (AddDriver (Registry.init _) "etcd" New) "zookeeper" unreachableBackend hostsOnly).1,
    by decide,
    (NewDriver_after_AddDriver "driver not supported" (Registry.init _) "etcd" New
      hostsOnly).2.2.1 "zookeeper" (by decide)⟩

theorem AddDriver_supportedBackend {δ : Type} (reg : Registry δ) (b : String)
    (c : Initialize δ) : (AddDriver reg b c).supportedBackend = reg.supportedBackend := rfl

theorem registered_supportedBackend {δ : Type} (calls : List (String × Initialize δ)) :
    (registered calls).supportedBackend = "" := by
  have h : ∀ (reg : Registry δ),
      (calls.foldl (fun reg call => AddDriver reg call.1 call.2) reg).supportedBackend =
        reg.supportedBackend := by
    induction calls with
    | nil => intro reg; rfl
    | cons call rest ih => intro reg; simp only [List.foldl_cons]; rw [ih]; rfl
  rw [registered, h]
  rfl

/-- C5, the code at the failing input: with `zookeeper` and `etcd` registered,
`NewDriver("redis", p)` returns the text of `ErrDriverNotSupported` followed by
a blank and nothing else, where the sorted, comma joined list of the
identifiers registered at that time is `etcd,zookeeper`; and after any
sequence of `AddDriver` calls `supportedBackend` is still the empty string it
was given when the package was initialised. -/
theorem NewDriver_unregistered_lists_nothing :
    NewDriver "driver not supported" (registered [("zookeeper", New), ("etcd", New)])
        "redis" hostsOnly =
      some (none, some (GoError.errorf "driver not supported ")) ∧
    supportedBackendOf (registered [("zookeeper", New), ("etcd", New)]).initializes =
      "etcd,zookeeper" ∧
    ∀ calls : List (String × Initialize NgCloudStorageDriver),
      (registered calls).supportedBackend = "" :=
  ⟨by decide, by decide, registered_supportedBackend⟩

/-! ## Single job reads -/

theorem getJob_nil_error (client : HttpClient) (JSON : HttpResponse → Except String Job)
    (jobid : String) : getJob client JSON jobid ≠ (none, none) := by
  unfold getJob
  cases client ("/sys_jobs/" ++ jobid) Query.empty with
  | error err => simp
  | ok respData =>
    by_cases h400 : respData.StatusCode ≥ StatusBadRequest
    · simp [h400]
    · by_cases h204 : respData.StatusCode = StatusNoContent
      · have h : ¬ StatusNoContent ≥ StatusBadRequest := by decide
        simp [h204, h]
      · cases hj : JSON respData <;> simp [h400, h204, hj]

/-- C6: when the request succeeds at transport level, `getJob` returns
`ErrDriverResourceNotFound` if and only if the status is 204; for every status
from 400 on it returns no job and the `fmt.Errorf` error carrying the job
identifier and that status, which is not `ErrDriverResourceNotFound`; and
`GetJob` returns `nil` in both cases. -/
theorem getJob_notFound_iff_no_content (client : HttpClient)
    (JSON : HttpResponse → Except String Job) (jobid : String) (respData : HttpResponse)
    (hget : client ("/sys_jobs/" ++ jobid) Query.empty = .ok respData) :
    ((getJob client JSON jobid).2 = some ErrDriverResourceNotFound ↔
      respData.StatusCode = StatusNoContent) ∧
    (respData.StatusCode = StatusNoContent →
      getJob client JSON jobid = (none, some ErrDriverResourceNotFound)) ∧
    (respData.StatusCode ≥ StatusBadRequest →
      getJob client JSON jobid =
        (none, some (GoError.errorf
          ("HTTP GET sys_jobs " ++ jobid ++ " failure " ++ Itoa respData.StatusCode ++ "."))) ∧
      (getJob client JSON jobid).2 ≠ some ErrDriverResourceNotFound) ∧
    (respData.StatusCode = StatusNoContent ∨ respData.StatusCode ≥ StatusBadRequest →
      (GetJob client JSON jobid).result = none) := by
  have h204 : respData.StatusCode = StatusNoContent →
      getJob client JSON jobid = (none, some ErrDriverResourceNotFound) := by
    intro h
    have hlt : ¬ StatusNoContent ≥ StatusBadRequest := by decide
    simp only [getJob, hget, h, hlt, if_false, if_true]
  have h400 : respData.StatusCode ≥ StatusBadRequest →
      getJob client JSON jobid =
        (none, some (GoError.errorf
          ("HTTP GET sys_jobs " ++ jobid ++ " failure " ++ Itoa respData.StatusCode ++ "."))) := by
    intro h
    simp only [getJob, hget, h, if_true]
  refine ⟨⟨fun h => ?_, fun h => by rw [h204 h]⟩, h204, fun h => ⟨h400 h, ?_⟩, fun h => ?_⟩
  · by_contra hne
    by_cases hge : respData.StatusCode ≥ StatusBadRequest
    · rw [h400 hge] at h
      exact absurd h (by simp [ErrDriverResourceNotFound])
    · simp only [getJob, hget, hge, if_false, hne] at h
      split at h <;> exact absurd h (by simp [ErrDriverResourceNotFound])
  · rw [h400 h]
    simp [ErrDriverResourceNotFound]
  · rcases h with h | h
    · simp only [GetJob, h204 h]
    · simp only [GetJob, h400 h]

/-- Witness of C6: a remote answering 204, and one answering 500. -/
theorem getJob_notFound_iff_no_content_witness :
    getJob (statusClient 204) sampleJSON "j1" = (none, some ErrDriverResourceNotFound) ∧
    getJob (statusClient 500) sampleJSON "j1" =
      (none, some (GoError.errorf "HTTP GET sys_jobs j1 failure 500.")) ∧
    (GetJob (statusClient 204) sampleJSON "j1").result = none ∧
    (GetJob (statusClient 500) sampleJSON "j1").result = none :=
  ⟨(getJob_notFound_iff_no_content (statusClient 204) sampleJSON "j1" ⟨204, "job"⟩ rfl).2.1
      rfl,
    ((getJob_notFound_iff_no_content (statusClient 500) sampleJSON "j1" ⟨500, "job"⟩ rfl).2.2.1
      (by decide)).1,
    (getJob_notFound_iff_no_content (statusClient 204) sampleJSON "j1" ⟨204, "job"⟩ rfl).2.2.2
      (Or.inl rfl),
    (getJob_notFound_iff_no_content (statusClient 500) sampleJSON "j1" ⟨500, "job"⟩ rfl).2.2.2
      (Or.inr (by decide))⟩

/-- C7: `getSimpleJob(id)` fails exactly when `getJob(id)` fails, with the same
error and no record; otherwise `getJob` returns a job and `getSimpleJob` a
`SimpleJob` whose seven fields are the fields of the same name of that job. -/
theorem getSimpleJob_projects_getJob (client : HttpClient)
    (JSON : HttpResponse → Except String Job) (jobid : String) :
    (getSimpleJob client JSON jobid).2 = (getJob client JSON jobid).2 ∧
    (∀ err, (getJob client JSON jobid).2 = some err →
      getSimpleJob client JSON jobid = (none, some err)) ∧
    ((getJob client JSON jobid).2 = none →
      ∃ job simple, getJob client JSON jobid = (some job, none) ∧
        getSimpleJob client JSON jobid = (some simple, none) ∧
        simple.JobId = job.JobId ∧ simple.Name = job.Name ∧
        simple.Location = job.Location ∧ simple.GroupId = job.GroupId ∧
        simple.Servers = job.Servers ∧ simple.Enabled = job.Enabled ∧
        simple.Stat = job.Stat) := by
  have hnil := getJob_nil_error client JSON jobid
  unfold getSimpleJob
  rcases hjob : getJob client JSON jobid with ⟨job, err⟩
  rw [hjob] at hnil
  cases err with
  | some e => simp
  | none =>
    cases job with
    | none => exact absurd rfl hnil
    | some j => simp

/-- Witness of C7: a remote answering 200 with a job, and one answering 204. -/
theorem getSimpleJob_projects_getJob_witness :
    getSimpleJob (statusClient 204) sampleJSON "a" = (none, some ErrDriverResourceNotFound) ∧
    ∃ job simple, getJob (statusClient 200) sampleJSON "a" = (some job, none) ∧
      getSimpleJob (statusClient 200) sampleJSON "a" = (some simple, none) ∧
      simple.JobId = job.JobId ∧ simple.Name = job.Name ∧
      simple.Location = job.Location ∧ simple.GroupId = job.GroupId ∧
      simple.Servers = job.Servers ∧ simple.Enabled = job.Enabled ∧
      simple.Stat = job.Stat :=
  ⟨(getSimpleJob_projects_getJob (statusClient 204) sampleJSON "a").2.1 _ (by decide),
    (getSimpleJob_projects_getJob (statusClient 200) sampleJSON "a").2.2 (by decide)⟩

/-! ## Construction and configuration of the etcd backend -/

/-- C8, the code at the failing input: with `hosts` given and `apiurl` absent,
and also with an `apiurl` that the URL parser rejects, `NewDriver` on the etcd
backend returns a driver and a `nil` error, where the claim says construction
fails.  On the same parameters `parseEngineConfigs` returns
`ErrNgCloudStorageDriverURLInvalid`, and `SetConfigParameters`, which does go
through it, logs and leaves the driver as it was: the validation exists and
`New` does not call it. -/
theorem New_without_apiurl_returns_driver :
    hostsOnly "apiurl" = none ∧
    NewDriver "driver not supported" (etcdRegistry "etcd") "etcd" hostsOnly =
      some (some ⟨⟨"127.0.0.1:2379"⟩⟩, none) ∧
    hostsAndBadURL "apiurl" = some (Value.string "http://[::1") ∧
    sampleURLParse "http://[::1" = none ∧
    NewDriver "driver not supported" (etcdRegistry "etcd") "etcd" hostsAndBadURL =
      some (some ⟨⟨"127.0.0.1:2379"⟩⟩, none) ∧
    parseEngineConfigs (fun _ => none) sampleURLParse id hostsOnly =
      some ("", 0, some ErrNgCloudStorageDriverURLInvalid) ∧
    parseEngineConfigs (fun _ => none) sampleURLParse id hostsAndBadURL =
      some ("", 0, some ErrNgCloudStorageDriverURLInvalid) ∧
    (NgCloudStorageDriver.SetConfigParameters (fun _ => none) sampleURLParse id
        ⟨⟨"127.0.0.1:2379"⟩⟩ hostsAndBadURL).events = [Event.log] ∧
    (NgCloudStorageDriver.SetConfigParameters (fun _ => none) sampleURLParse id
        ⟨⟨"127.0.0.1:2379"⟩⟩ hostsAndBadURL).result = some ⟨⟨"127.0.0.1:2379"⟩⟩ :=
  ⟨by decide, by decide, by decide, by decide, by decide, by decide, by decide, by decide,
    by decide⟩

/-! ## Locking -/

/-- C9, the code at the failing input: with a well formed `apiurl`,
`SetConfigParameters` of the adapter calls `SetConfigParameters` of the engine
and logs, and does no operation on the mutex: the engine is called while the
write lock is not held.  `SetJob` and `SetJobLog` hold the write lock from
their first event to their last, and `GetJob` and `GetSimpleJob` the read
lock. -/
theorem SetConfigParameters_calls_engine_without_lock :
    (NgCloudStorageDriver.SetConfigParameters (fun _ => none) sampleURLParse id
        ⟨⟨"127.0.0.1:2379"⟩⟩ hostsAndURL).events =
      [Event.engine "SetConfigParameters", Event.log] ∧
    engineWithoutLock "SetConfigParameters"
      (NgCloudStorageDriver.SetConfigParameters (fun _ => none) sampleURLParse id
        ⟨⟨"127.0.0.1:2379"⟩⟩ hostsAndURL).events = true ∧
    heldThroughout Event.Lock Event.Unlock
      (NgCloudStorageDriver.SetConfigParameters (fun _ => none) sampleURLParse id
        ⟨⟨"127.0.0.1:2379"⟩⟩ hostsAndURL).events = false ∧
    (∀ job, heldThroughout Event.Lock Event.Unlock (SetJob job).events = true) ∧
    (∀ joblog, heldThroughout Event.Lock Event.Unlock (SetJobLog joblog).events = true) ∧
    (∀ client JSON jobid,
      heldThroughout Event.RLock Event.RUnlock (GetJob client JSON jobid).events = true) ∧
    (∀ client JSON jobid,
      heldThroughout Event.RLock Event.RUnlock (GetSimpleJob client JSON jobid).events =
        true) := by
  refine ⟨by decide, by decide, by decide, fun _ => rfl, fun _ => rfl, ?_, ?_⟩
  · intro client JSON jobid
    unfold GetJob
    split <;> rfl
  · intro client JSON jobid
    unfold GetSimpleJob
    split <;> rfl

end CloudTask
